import Mathlib

/-!
Verification of the Boxer message-box facade (boxer.hpp).

The source is a header-only C++ library: three enumerations (Style,
Buttons, Selection), per-platform switch statements translating the
enumerations to native GTK / Win32 constants and translating native
response codes back to Selection, and one function `show` that calls
the native modal-dialog primitive.

The embedding below mirrors the source:
  * the enumerations become inductive types; since C++ `enum class`
    values can be cast from arbitrary integers, every switch statement
    is modelled over the raw integer representation (`code`), so the
    `default:` branches of the source are represented faithfully;
  * the native constants carry their documented platform values
    (GtkMessageType, GtkButtonsType, GtkResponseType, MB_*, ID*);
  * results of native calls (gtk_init_check, gtk_dialog_run,
    MultiByteToWideChar success, MessageBox) are inputs, collected in a
    `NativeEnv`; `showT` returns both the Selection and the trace of
    native calls performed, in source order;
  * `std::to_string` uses `std::map::at`, which throws for a missing
    key; the embedding returns `Option String`, `none` standing for the
    out-of-range failure.
-/

namespace Boxer

/-- Options for styles to apply to a message box (enum class Style). -/
inductive Style
  | Info
  | Warning
  | Error
  | Question
deriving DecidableEq

/-- Options for buttons to provide on a message box (enum class Buttons). -/
inductive Buttons
  | OK
  | OKCancel
  | YesNo
  | Quit
deriving DecidableEq

/-- Possible responses from a message box (enum class Selection). -/
inductive Selection
  | OK
  | Cancel
  | Yes
  | No
  | Quit
  | None
  | Error
deriving DecidableEq

/-- Underlying integer value of each Style enumerator (C++ default numbering). -/
def Style.code : Style → Int
  | .Info => 0
  | .Warning => 1
  | .Error => 2
  | .Question => 3

/-- Underlying integer value of each Buttons enumerator (C++ default numbering). -/
def Buttons.code : Buttons → Int
  | .OK => 0
  | .OKCancel => 1
  | .YesNo => 2
  | .Quit => 3

/-- Underlying integer value of each Selection enumerator (C++ default numbering). -/
def Selection.code : Selection → Int
  | .OK => 0
  | .Cancel => 1
  | .Yes => 2
  | .No => 3
  | .Quit => 4
  | .None => 5
  | .Error => 6

/-! GTK native constants (documented values of the GTK enumerations). -/

def GTK_MESSAGE_INFO : Int := 0

def GTK_MESSAGE_WARNING : Int := 1

def GTK_MESSAGE_QUESTION : Int := 2

def GTK_MESSAGE_ERROR : Int := 3

def GTK_BUTTONS_OK : Int := 1

def GTK_BUTTONS_CLOSE : Int := 2

def GTK_BUTTONS_YES_NO : Int := 4

def GTK_BUTTONS_OK_CANCEL : Int := 5

def GTK_RESPONSE_OK : Int := -5

def GTK_RESPONSE_CANCEL : Int := -6

def GTK_RESPONSE_CLOSE : Int := -7

def GTK_RESPONSE_YES : Int := -8

def GTK_RESPONSE_NO : Int := -9

/-! Win32 native constants (documented values from WinUser.h). -/

def MB_OK : Nat := 0

def MB_OKCANCEL : Nat := 1

def MB_YESNO : Nat := 4

def MB_ICONERROR : Nat := 16

def MB_ICONQUESTION : Nat := 32

def MB_ICONWARNING : Nat := 48

def MB_ICONINFORMATION : Nat := 64

def MB_TASKMODAL : Nat := 8192

def IDOK : Int := 1

def IDCANCEL : Int := 2

def IDYES : Int := 6

def IDNO : Int := 7

/-- Linux: `getMessageType`, modelled over the raw Style code so the
`default:` branch of the source switch is represented. -/
def getMessageTypeCode (c : Int) : Int :=
  if c = 0 then GTK_MESSAGE_INFO
  else if c = 1 then GTK_MESSAGE_WARNING
  else if c = 2 then GTK_MESSAGE_ERROR
  else if c = 3 then GTK_MESSAGE_QUESTION
  else GTK_MESSAGE_INFO

/-- Linux: `getMessageType` on in-range Style values. -/
def getMessageType (style : Style) : Int :=
  getMessageTypeCode style.code

/-- Linux: `getButtonsType`, modelled over the raw Buttons code so the
`default:` branch of the source switch is represented. -/
def getButtonsTypeCode (c : Int) : Int :=
  if c = 0 then GTK_BUTTONS_OK
  else if c = 1 then GTK_BUTTONS_OK_CANCEL
  else if c = 2 then GTK_BUTTONS_YES_NO
  else if c = 3 then GTK_BUTTONS_CLOSE
  else GTK_BUTTONS_OK

/-- Linux: `getButtonsType` on in-range Buttons values. -/
def getButtonsType (buttons : Buttons) : Int :=
  getButtonsTypeCode buttons.code

/-- Linux: `getSelection(gint response)`. -/
def getSelectionLinux (response : Int) : Selection :=
  if response = GTK_RESPONSE_OK then Selection.OK
  else if response = GTK_RESPONSE_CANCEL then Selection.Cancel
  else if response = GTK_RESPONSE_YES then Selection.Yes
  else if response = GTK_RESPONSE_NO then Selection.No
  else if response = GTK_RESPONSE_CLOSE then Selection.Quit
  else Selection.None

/-- Windows: `getIcon`, modelled over the raw Style code so the
`default:` branch of the source switch is represented. -/
def getIconCode (c : Int) : Nat :=
  if c = 0 then MB_ICONINFORMATION
  else if c = 1 then MB_ICONWARNING
  else if c = 2 then MB_ICONERROR
  else if c = 3 then MB_ICONQUESTION
  else MB_ICONINFORMATION

/-- Windows: `getIcon` on in-range Style values. -/
def getIcon (style : Style) : Nat :=
  getIconCode style.code

/-- Windows: `getButtons`, modelled over the raw Buttons code; the source
groups the `OK` and `Quit` cases (there is no Quit button on Windows)
and has a `default:` branch. -/
def getButtonsCode (c : Int) : Nat :=
  if c = 0 ∨ c = 3 then MB_OK
  else if c = 1 then MB_OKCANCEL
  else if c = 2 then MB_YESNO
  else MB_OK

/-- Windows: `getButtons` on in-range Buttons values. -/
def getButtons (buttons : Buttons) : Nat :=
  getButtonsCode buttons.code

/-- Windows: `getSelection(int response, Buttons buttons)`. -/
def getSelectionWindows (response : Int) (buttons : Buttons) : Selection :=
  if response = IDOK then
    (if buttons = Buttons.Quit then Selection.Quit else Selection.OK)
  else if response = IDCANCEL then Selection.Cancel
  else if response = IDYES then Selection.Yes
  else if response = IDNO then Selection.No
  else Selection.None

/-- Native calls performed by `show`, in source order. One event per
native call; the `while (g_main_context_iteration(...))` drain loop is
one event, since its iteration count is owned by GTK. -/
inductive Event
  | gtkInitCheck
  | gtkWindowNew
  | gtkMessageDialogNew (messageType : Int) (buttonsType : Int) (message : String)
  | gtkWindowSetTitle (title : String)
  | gtkWindowSetGravity
  | gtkWindowSetPosition
  | gtkDialogRun
  | gtkWidgetDestroy
  | gMainContextDrain
  | multiByteToWideChar (text : String)
  | messageBoxCall (message : String) (title : String) (flags : Nat)
deriving DecidableEq

/-- Outcomes of the native calls that `show` consults: whether
`gtk_init_check` succeeds, what `gtk_dialog_run` returns, whether the
UTF-8 to UTF-16 conversion of a given string succeeds, and what
`MessageBox` returns. These are owned by the platform, so they are
inputs of the model. -/
structure NativeEnv where
  gtkInitOk : Bool
  gtkResponse : Int
  wideCharOk : String → Bool
  msgBoxResponse : Int

/-- The three build configurations of the source: `__linux__`,
`WINDOWS` with `UNICODE`, and `WINDOWS` without `UNICODE`. -/
inductive Platform
  | linux
  | windowsUnicode
  | windowsAnsi
deriving DecidableEq

/-- `boxer::show(message, title, style, buttons)`: returns the Selection
together with the trace of native calls, following the source line by
line for each build configuration. -/
def showT (p : Platform) (env : NativeEnv) (message title : String)
    (style : Style) (buttons : Buttons) : Selection × List Event :=
  match p with
  | .linux =>
    if env.gtkInitOk then
      (getSelectionLinux env.gtkResponse,
        [Event.gtkInitCheck,
         Event.gtkWindowNew,
         Event.gtkMessageDialogNew (getMessageType style) (getButtonsType buttons) message,
         Event.gtkWindowSetTitle title,
         Event.gtkWindowSetGravity, Event.gtkWindowSetGravity,
         Event.gtkWindowSetPosition, Event.gtkWindowSetPosition,
         Event.gtkDialogRun,
         Event.gtkWidgetDestroy, Event.gtkWidgetDestroy,
         Event.gMainContextDrain])
    else
      (Selection.Error, [Event.gtkInitCheck])
  | .windowsUnicode =>
    let flags := Nat.lor (Nat.lor MB_TASKMODAL (getIcon style)) (getButtons buttons)
    if env.wideCharOk message then
      if env.wideCharOk title then
        (getSelectionWindows env.msgBoxResponse buttons,
          [Event.multiByteToWideChar message,
           Event.multiByteToWideChar title,
           Event.messageBoxCall message title flags])
      else
        (Selection.Error,
          [Event.multiByteToWideChar message, Event.multiByteToWideChar title])
    else
      (Selection.Error, [Event.multiByteToWideChar message])
  | .windowsAnsi =>
    let flags := Nat.lor (Nat.lor MB_TASKMODAL (getIcon style)) (getButtons buttons)
    (getSelectionWindows env.msgBoxResponse buttons,
      [Event.messageBoxCall message title flags])

/-- The Selection returned by `boxer::show(message, title, style, buttons)`. -/
def showBox (p : Platform) (env : NativeEnv) (message title : String)
    (style : Style) (buttons : Buttons) : Selection :=
  (showT p env message title style buttons).1

/-- The default style to apply to a message box. -/
def kDefaultStyle : Style := Style.Info

/-- The default buttons to provide on a message box. -/
def kDefaultButtons : Buttons := Buttons.OK

/-- Overload `show(message, title, style)`. -/
def showWithStyle (p : Platform) (env : NativeEnv) (message title : String)
    (style : Style) : Selection :=
  showBox p env message title style kDefaultButtons

/-- Overload `show(message, title, buttons)`. -/
def showWithButtons (p : Platform) (env : NativeEnv) (message title : String)
    (buttons : Buttons) : Selection :=
  showBox p env message title kDefaultStyle buttons

/-- Overload `show(message, title)`. -/
def showDefault (p : Platform) (env : NativeEnv) (message title : String) : Selection :=
  showBox p env message title kDefaultStyle kDefaultButtons

/-! The `std::to_string` overloads. Each is backed by a `std::map` whose
keys are enumeration values; `std::map::at` throws `std::out_of_range`
for a missing key. The maps are modelled as association lists keyed by
the raw enumerator code, and `mapAt` returns `none` where `at` throws. -/

/-- The entries of `std::boxer_detail::styleToString`. -/
def styleToString : List (Int × String) :=
  [(0, "Info"), (1, "Warning"), (2, "Error"), (3, "Question")]

/-- The entries of `std::boxer_detail::buttonsToString`. -/
def buttonsToString : List (Int × String) :=
  [(0, "OK"), (1, "OKCancel"), (2, "YesNo"), (3, "Quit")]

/-- The entries of `std::boxer_detail::selectionToString`. -/
def selectionToString : List (Int × String) :=
  [(0, "OK"), (1, "Cancel"), (2, "Yes"), (3, "No"), (4, "Quit"), (5, "None"), (6, "Error")]

/-- `std::map::at`: the mapped value when the key is present, `none`
(standing for the thrown `std::out_of_range`) when it is not. -/
def mapAt (entries : List (Int × String)) (key : Int) : Option String :=
  (entries.find? (fun kv => kv.1 == key)).map (fun kv => kv.2)

/-- `std::to_string(boxer::Style)`, over the raw enumerator code. -/
def toStringStyle (c : Int) : Option String :=
  mapAt styleToString c

/-- `std::to_string(boxer::Buttons)`, over the raw enumerator code. -/
def toStringButtons (c : Int) : Option String :=
  mapAt buttonsToString c

/-- `std::to_string(boxer::Selection)`, over the raw enumerator code. -/
def toStringSelection (c : Int) : Option String :=
  mapAt selectionToString c

/-! Concrete native environments used by the witnesses. -/

/-- An environment in which every native call succeeds and both native
dialog primitives report the OK response. -/
def envAllOk : NativeEnv :=
  { gtkInitOk := true, gtkResponse := GTK_RESPONSE_OK,
    wideCharOk := fun _ => true, msgBoxResponse := IDOK }

/-- An environment in which `gtk_init_check` fails. -/
def envInitFail : NativeEnv :=
  { gtkInitOk := false, gtkResponse := GTK_RESPONSE_OK,
    wideCharOk := fun _ => true, msgBoxResponse := IDOK }

/-- An environment in which the UTF-8 to UTF-16 conversion fails. -/
def envConvFail : NativeEnv :=
  { gtkInitOk := true, gtkResponse := GTK_RESPONSE_OK,
    wideCharOk := fun _ => false, msgBoxResponse := IDOK }

/-- An environment in which `MessageBox` fails, returning 0. -/
def envMsgBoxZero : NativeEnv :=
  { gtkInitOk := true, gtkResponse := GTK_RESPONSE_OK,
    wideCharOk := fun _ => true, msgBoxResponse := 0 }

/-! Sample strings used by the witnesses. -/

def mText : String := "Hello"

def tText : String := "Title"

/-! Helper lemmas shared by several theorems. -/

/-- The Linux response mapping never produces `Selection.Error`. -/
theorem getSelectionLinux_ne_error (r : Int) :
    getSelectionLinux r ≠ Selection.Error := by
  unfold getSelectionLinux
  repeat' split
  all_goals decide

/-- The Windows response mapping never produces `Selection.Error`. -/
theorem getSelectionWindows_ne_error (r : Int) (b : Buttons) :
    getSelectionWindows r b ≠ Selection.Error := by
  unfold getSelectionWindows
  repeat' split
  all_goals decide

/-- C1: `show` returns `Selection.Error` when native toolkit
initialization fails (Linux build) and when the text-encoding
conversion fails (Windows UNICODE build, the platform that performs
it); in every other case the result is a member of the `Selection`
enumeration — the embedding is a total function into `Selection`, so no
exception crosses the public boundary. -/
theorem show_failure_and_totality :
    (∀ env m t s b, env.gtkInitOk = false →
      showBox Platform.linux env m t s b = Selection.Error) ∧
    (∀ env m t s b, env.wideCharOk m = false ∨ env.wideCharOk t = false →
      showBox Platform.windowsUnicode env m t s b = Selection.Error) ∧
    (∀ p env m t s b, showBox p env m t s b ∈
      [Selection.OK, Selection.Cancel, Selection.Yes, Selection.No,
       Selection.Quit, Selection.None, Selection.Error]) := by
  refine ⟨?_, ?_, ?_⟩
  · intro env m t s b h
    simp [showBox, showT, h]
  · intro env m t s b h
    rcases h with h | h
    · simp [showBox, showT, h]
    · cases hm : env.wideCharOk m
      · simp [showBox, showT, hm]
      · simp [showBox, showT, hm, h]
  · intro p env m t s b
    cases h : showBox p env m t s b <;> simp

/-- Witness for C1 at concrete failing environments. -/
theorem show_failure_and_totality_witness :
    showBox Platform.linux envInitFail mText tText Style.Info Buttons.OK
      = Selection.Error ∧
    showBox Platform.windowsUnicode envConvFail mText tText Style.Info Buttons.OK
      = Selection.Error :=
  ⟨show_failure_and_totality.1 envInitFail mText tText Style.Info Buttons.OK rfl,
   show_failure_and_totality.2.1 envConvFail mText tText Style.Info Buttons.OK
     (Or.inl rfl)⟩

/-- C2: on Windows, `getButtons` maps `Buttons.Quit` to the same native
constant as `Buttons.OK` (namely `MB_OK`), and the response mapping
translates the OK-equivalent native response `IDOK` to `Selection.Quit`
rather than `Selection.OK` when the request was `Buttons.Quit`. -/
theorem quit_mapping_windows :
    getButtons Buttons.Quit = MB_OK ∧
    getButtons Buttons.OK = MB_OK ∧
    getSelectionWindows IDOK Buttons.Quit = Selection.Quit ∧
    getSelectionWindows IDOK Buttons.Quit ≠ Selection.OK := by
  refine ⟨rfl, rfl, rfl, by decide⟩

/-- C3: the three convenience overloads equal the four-argument `show`
with `Style.Info` and `Buttons.OK` filled in for the omitted
arguments, for every platform, native environment and argument. -/
theorem show_overload_equivalence :
    ∀ p env m t s b,
      showDefault p env m t = showBox p env m t Style.Info Buttons.OK ∧
      showWithStyle p env m t s = showBox p env m t s Buttons.OK ∧
      showWithButtons p env m t b = showBox p env m t Style.Info b := by
  intro p env m t s b
  exact ⟨rfl, rfl, rfl⟩

/-- C4: the response mappings are total: each recognized native
response code maps to exactly one Selection (on Windows, `IDOK` maps
through the requested Buttons value), and every unrecognized code maps
to `Selection.None`. -/
theorem getSelection_totality :
    (getSelectionLinux GTK_RESPONSE_OK = Selection.OK ∧
     getSelectionLinux GTK_RESPONSE_CANCEL = Selection.Cancel ∧
     getSelectionLinux GTK_RESPONSE_YES = Selection.Yes ∧
     getSelectionLinux GTK_RESPONSE_NO = Selection.No ∧
     getSelectionLinux GTK_RESPONSE_CLOSE = Selection.Quit) ∧
    (∀ r, r ≠ GTK_RESPONSE_OK → r ≠ GTK_RESPONSE_CANCEL → r ≠ GTK_RESPONSE_YES →
      r ≠ GTK_RESPONSE_NO → r ≠ GTK_RESPONSE_CLOSE →
      getSelectionLinux r = Selection.None) ∧
    (∀ b, getSelectionWindows IDOK b =
        (if b = Buttons.Quit then Selection.Quit else Selection.OK) ∧
      getSelectionWindows IDCANCEL b = Selection.Cancel ∧
      getSelectionWindows IDYES b = Selection.Yes ∧
      getSelectionWindows IDNO b = Selection.No) ∧
    (∀ r b, r ≠ IDOK → r ≠ IDCANCEL → r ≠ IDYES → r ≠ IDNO →
      getSelectionWindows r b = Selection.None) := by
  refine ⟨by decide, ?_, ?_, ?_⟩
  · intro r h1 h2 h3 h4 h5
    simp [getSelectionLinux, h1, h2, h3, h4, h5]
  · intro b
    cases b <;> decide
  · intro r b h1 h2 h3 h4
    simp [getSelectionWindows, h1, h2, h3, h4]

/-- Witness for C4 at the unrecognized response code 0. -/
theorem getSelection_totality_witness :
    getSelectionLinux 0 = Selection.None ∧
    getSelectionWindows 0 Buttons.OK = Selection.None :=
  ⟨getSelection_totality.2.1 0 (by decide) (by decide) (by decide) (by decide)
     (by decide),
   getSelection_totality.2.2.2 0 Buttons.OK (by decide) (by decide) (by decide)
     (by decide)⟩

/-- C5: on each platform, the style-to-icon mapping sends the four
Style values to four distinct documented native constants, and every
out-of-range raw Style code falls back to the constant for
`Style.Info`. -/
theorem style_icon_mapping :
    (getMessageType Style.Info = GTK_MESSAGE_INFO ∧
     getMessageType Style.Warning = GTK_MESSAGE_WARNING ∧
     getMessageType Style.Error = GTK_MESSAGE_ERROR ∧
     getMessageType Style.Question = GTK_MESSAGE_QUESTION) ∧
    ([getMessageType Style.Info, getMessageType Style.Warning,
      getMessageType Style.Error, getMessageType Style.Question] : List Int).Nodup ∧
    (getIcon Style.Info = MB_ICONINFORMATION ∧
     getIcon Style.Warning = MB_ICONWARNING ∧
     getIcon Style.Error = MB_ICONERROR ∧
     getIcon Style.Question = MB_ICONQUESTION) ∧
    ([getIcon Style.Info, getIcon Style.Warning, getIcon Style.Error,
      getIcon Style.Question] : List Nat).Nodup ∧
    (∀ c, c ≠ 0 → c ≠ 1 → c ≠ 2 → c ≠ 3 →
      getMessageTypeCode c = getMessageType Style.Info ∧
      getIconCode c = getIcon Style.Info) := by
  refine ⟨by decide, by decide, by decide, by decide, ?_⟩
  intro c h0 h1 h2 h3
  constructor <;>
    simp [getMessageTypeCode, getIconCode, getMessageType, getIcon, Style.code,
      h0, h1, h2, h3]

/-- Witness for C5 at the out-of-range Style code 9. -/
theorem style_icon_mapping_witness :
    getMessageTypeCode 9 = getMessageType Style.Info ∧
    getIconCode 9 = getIcon Style.Info :=
  style_icon_mapping.2.2.2.2 9 (by decide) (by decide) (by decide) (by decide)

/-- C6: `std::to_string` returns the literal documented name string for
every valid enumerator of Style, Buttons and Selection, and for every
out-of-range enumerator code the `std::map::at` lookup fails with an
out-of-range access (`none`) rather than returning a string. -/
theorem to_string_mapping :
    (toStringStyle (Style.code Style.Info) = some ("Info") ∧
     toStringStyle (Style.code Style.Warning) = some ("Warning") ∧
     toStringStyle (Style.code Style.Error) = some ("Error") ∧
     toStringStyle (Style.code Style.Question) = some ("Question")) ∧
    (toStringButtons (Buttons.code Buttons.OK) = some ("OK") ∧
     toStringButtons (Buttons.code Buttons.OKCancel) = some ("OKCancel") ∧
     toStringButtons (Buttons.code Buttons.YesNo) = some ("YesNo") ∧
     toStringButtons (Buttons.code Buttons.Quit) = some ("Quit")) ∧
    (toStringSelection (Selection.code Selection.OK) = some ("OK") ∧
     toStringSelection (Selection.code Selection.Cancel) = some ("Cancel") ∧
     toStringSelection (Selection.code Selection.Yes) = some ("Yes") ∧
     toStringSelection (Selection.code Selection.No) = some ("No") ∧
     toStringSelection (Selection.code Selection.Quit) = some ("Quit") ∧
     toStringSelection (Selection.code Selection.None) = some ("None") ∧
     toStringSelection (Selection.code Selection.Error) = some ("Error")) ∧
    (∀ c, (c < 0 ∨ 3 < c) →
      toStringStyle c = none ∧ toStringButtons c = none) ∧
    (∀ c, (c < 0 ∨ 6 < c) → toStringSelection c = none) := by
  refine ⟨⟨rfl, rfl, rfl, rfl⟩, ⟨rfl, rfl, rfl, rfl⟩,
    ⟨rfl, rfl, rfl, rfl, rfl, rfl, rfl⟩, ?_, ?_⟩
  · intro c h
    have h0 : ((0 : Int) == c) = false := beq_eq_false_iff_ne.mpr (by omega)
    have h1 : ((1 : Int) == c) = false := beq_eq_false_iff_ne.mpr (by omega)
    have h2 : ((2 : Int) == c) = false := beq_eq_false_iff_ne.mpr (by omega)
    have h3 : ((3 : Int) == c) = false := beq_eq_false_iff_ne.mpr (by omega)
    constructor <;>
      simp [toStringStyle, toStringButtons, mapAt, styleToString, buttonsToString,
        List.find?, h0, h1, h2, h3]
  · intro c h
    have h0 : ((0 : Int) == c) = false := beq_eq_false_iff_ne.mpr (by omega)
    have h1 : ((1 : Int) == c) = false := beq_eq_false_iff_ne.mpr (by omega)
    have h2 : ((2 : Int) == c) = false := beq_eq_false_iff_ne.mpr (by omega)
    have h3 : ((3 : Int) == c) = false := beq_eq_false_iff_ne.mpr (by omega)
    have h4 : ((4 : Int) == c) = false := beq_eq_false_iff_ne.mpr (by omega)
    have h5 : ((5 : Int) == c) = false := beq_eq_false_iff_ne.mpr (by omega)
    have h6 : ((6 : Int) == c) = false := beq_eq_false_iff_ne.mpr (by omega)
    simp [toStringSelection, mapAt, selectionToString, List.find?,
      h0, h1, h2, h3, h4, h5, h6]

/-- Witness for C6 at the out-of-range enumerator code 42. -/
theorem to_string_mapping_witness :
    (toStringStyle 42 = none ∧ toStringButtons 42 = none) ∧
    toStringSelection 42 = none :=
  ⟨to_string_mapping.2.2.2.1 42 (Or.inr (by decide)),
   to_string_mapping.2.2.2.2 42 (Or.inr (by decide))⟩

/-- C7: `show` is atomic on failure: whenever it returns
`Selection.Error` (toolkit-initialization failure or text-encoding
conversion failure), its trace of native calls contains no dialog
construction (`gtk_message_dialog_new` or `MessageBox`) and no dialog
display (`gtk_dialog_run`). -/
theorem show_error_atomic :
    ∀ p env m t s b, showBox p env m t s b = Selection.Error →
      (∀ mt bt msg, Event.gtkMessageDialogNew mt bt msg ∉ (showT p env m t s b).2) ∧
      Event.gtkDialogRun ∉ (showT p env m t s b).2 ∧
      (∀ msg ttl fl, Event.messageBoxCall msg ttl fl ∉ (showT p env m t s b).2) := by
  intro p env m t s b herr
  cases p with
  | linux =>
    cases hinit : env.gtkInitOk with
    | false => refine ⟨?_, ?_, ?_⟩ <;> simp [showT, hinit]
    | true =>
      exact absurd herr (by simp [showBox, showT, hinit, getSelectionLinux_ne_error])
  | windowsUnicode =>
    cases hm : env.wideCharOk m with
    | false => refine ⟨?_, ?_, ?_⟩ <;> simp [showT, hm]
    | true =>
      cases ht : env.wideCharOk t with
      | false => refine ⟨?_, ?_, ?_⟩ <;> simp [showT, hm, ht]
      | true =>
        exact absurd herr
          (by simp [showBox, showT, hm, ht, getSelectionWindows_ne_error])
  | windowsAnsi =>
    exact absurd herr (by simp [showBox, showT, getSelectionWindows_ne_error])

/-- Witness for C7: with `gtk_init_check` failing, the trace of `show`
does not run a dialog. -/
theorem show_error_atomic_witness :
    Event.gtkDialogRun ∉
      (showT Platform.linux envInitFail mText tText Style.Info Buttons.OK).2 :=
  (show_error_atomic Platform.linux envInitFail mText tText Style.Info
    Buttons.OK rfl).2.1

/-- C8: on Windows, the response mapping depends on the requested
Buttons value only at the native response `IDOK`: at every other
response it returns the same Selection for all Buttons values. -/
theorem windows_selection_depends_only_on_idok :
    ∀ r b1 b2, r ≠ IDOK → getSelectionWindows r b1 = getSelectionWindows r b2 := by
  intro r b1 b2 h
  simp [getSelectionWindows, h]

/-- Witness for C8 at the native response `IDCANCEL`. -/
theorem windows_selection_depends_only_on_idok_witness :
    getSelectionWindows IDCANCEL Buttons.OK
      = getSelectionWindows IDCANCEL Buttons.Quit :=
  windows_selection_depends_only_on_idok IDCANCEL Buttons.OK Buttons.Quit
    (by decide)

/-- C9: in the Windows build without UNICODE, `show` never returns
`Selection.Error`, its trace performs no text-encoding conversion, and
a failed native `MessageBox` call (return code 0) is reported as
`Selection.None` through the unrecognized-response branch. -/
theorem windows_ansi_no_error :
    (∀ env m t s b, showBox Platform.windowsAnsi env m t s b ≠ Selection.Error) ∧
    (∀ env m t s b txt,
      Event.multiByteToWideChar txt ∉ (showT Platform.windowsAnsi env m t s b).2) ∧
    (∀ env m t s b, env.msgBoxResponse = 0 →
      showBox Platform.windowsAnsi env m t s b = Selection.None) := by
  refine ⟨?_, ?_, ?_⟩
  · intro env m t s b
    simp [showBox, showT, getSelectionWindows_ne_error]
  · intro env m t s b txt
    simp [showT]
  · intro env m t s b h
    simp [showBox, showT, h, getSelectionWindows, IDOK, IDCANCEL, IDYES, IDNO]

/-- Witness for C9: `MessageBox` returning 0 yields `Selection.None`. -/
theorem windows_ansi_no_error_witness :
    showBox Platform.windowsAnsi envMsgBoxZero mText tText Style.Info Buttons.OK
      = Selection.None :=
  windows_ansi_no_error.2.2 envMsgBoxZero mText tText Style.Info Buttons.OK rfl

/-- C10: neither response mapping can produce `Selection.Error`, so a
`Selection.Error` result of `show` can only come from the guard
branches that run before the native dialog call: a failed
`gtk_init_check` on Linux, or a failed text-encoding conversion on the
Windows UNICODE build. -/
theorem selection_error_only_from_guards :
    (∀ r, getSelectionLinux r ≠ Selection.Error) ∧
    (∀ r b, getSelectionWindows r b ≠ Selection.Error) ∧
    (∀ p env m t s b, showBox p env m t s b = Selection.Error →
      (p = Platform.linux ∧ env.gtkInitOk = false) ∨
      (p = Platform.windowsUnicode ∧
        (env.wideCharOk m = false ∨ env.wideCharOk t = false))) := by
  refine ⟨getSelectionLinux_ne_error, getSelectionWindows_ne_error, ?_⟩
  intro p env m t s b herr
  cases p with
  | linux =>
    cases hinit : env.gtkInitOk with
    | false => exact Or.inl ⟨rfl, rfl⟩
    | true =>
      exact absurd herr (by simp [showBox, showT, hinit, getSelectionLinux_ne_error])
  | windowsUnicode =>
    cases hm : env.wideCharOk m with
    | false => exact Or.inr ⟨rfl, Or.inl rfl⟩
    | true =>
      cases ht : env.wideCharOk t with
      | false => exact Or.inr ⟨rfl, Or.inr rfl⟩
      | true =>
        exact absurd herr
          (by simp [showBox, showT, hm, ht, getSelectionWindows_ne_error])
  | windowsAnsi =>
    exact absurd herr (by simp [showBox, showT, getSelectionWindows_ne_error])

/-- Witness for C10 at the failed-initialization environment. -/
theorem selection_error_only_from_guards_witness :
    (Platform.linux = Platform.linux ∧ envInitFail.gtkInitOk = false) ∨
    (Platform.linux = Platform.windowsUnicode ∧
      (envInitFail.wideCharOk mText = false ∨
        envInitFail.wideCharOk tText = false)) :=
  selection_error_only_from_guards.2.2 Platform.linux envInitFail mText tText
    Style.Info Buttons.OK rfl

end Boxer
